import Mathlib

/-
Shallow embedding of the RideShare booking and location modules.

Booking logic is embedded from src/unnamed/part_001 (createBooking,
handleBookingRequest, updateBookingStatus); location logic from
src/src/lib/location.ts (updateDriverLocation, startLocationTracking,
geocodeLocation).

Remote calls (the Supabase client, the browser geolocation API, the
Nominatim HTTP endpoint) are modelled by explicit state passing plus an
environment of call outcomes: each remote call may fail at the transport
level (a Bool flag in the environment), and the database is an explicit
record of tables.  Semantics of the hosted PostgREST layer used by the
code, as observable from the call sites:
  - select ... .single() yields a non-null error when zero rows match;
  - update ... filtered by .eq(...) clauses applies to every matching
    row and yields a null error even when zero rows match (PostgREST
    reports a zero-row UPDATE as success; the error field is non-null
    only on transport or HTTP failure);
  - a delete whose result object is discarded has no observable error
    handling.
The race the optimistic-concurrency filter guards against is modelled by
an optional concurrent write to the ride's seat count placed between the
booking insert and the conditional update.
-/

namespace RideShare

/-- A row of the rides table, restricted to the columns this module reads. -/
structure Ride where
  id : String
  driver_id : String
  available_seats : Int
  status : String
deriving Repr, DecidableEq

/-- A row of the bookings table, restricted to the columns this module reads. -/
structure Booking where
  id : String
  ride_id : String
  passenger_id : String
  seats_booked : Int
  status : String
deriving Repr, DecidableEq

/-- The remote database state visible to the booking module. -/
structure DB where
  rides : List Ride
  bookings : List Booking
deriving Repr, DecidableEq

/-- CreateBookingParams from part_001. -/
structure CreateBookingParams where
  ride_id : String
  passenger_id : String
  seats_booked : Int
deriving Repr, DecidableEq

/-- supabase.from('rides').select(...).eq('id', rid).single() : the single
row whose id matches, if any. -/
def findRide (db : DB) (rid : String) : Option Ride :=
  db.rides.find? (fun r => r.id == rid)

/-- Lookup of a booking row by id. -/
def findBooking (db : DB) (bid : String) : Option Booking :=
  db.bookings.find? (fun b => b.id == bid)

/-- Number of rows the conditional seat update matches:
rides.update(...).eq('id', rid).eq('available_seats', expected). -/
def matchedRows (db : DB) (rid : String) (expected : Int) : Nat :=
  (db.rides.filter (fun r => r.id == rid && r.available_seats == expected)).length

/-- Effect of the conditional seat update on the rides table: every row
matching both .eq filters gets the new seat count; zero matches leave the
table unchanged (and, per PostgREST, still count as a successful call). -/
def condUpdateRideSeats (db : DB) (rid : String) (expected newSeats : Int) : DB :=
  { db with rides := db.rides.map (fun r =>
      if r.id == rid && r.available_seats == expected then
        { r with available_seats := newSeats } else r) }

/-- bookings.delete().eq('id', bid). -/
def deleteBooking (db : DB) (bid : String) : DB :=
  { db with bookings := db.bookings.filter (fun b => !(b.id == bid)) }

/-- The concurrent interference the optimistic filter guards against: an
optional competing write that sets the ride's seat count between the
booking insert and the conditional update. -/
def applyRace (db : DB) (rid : String) : Option Int → DB
  | none => db
  | some s => { db with rides := db.rides.map (fun r =>
      if r.id == rid then { r with available_seats := s } else r) }

/-- Remote-call outcomes for one run of createBooking.  newBookingId is
the id the insert assigns; deleteFails models a transport failure of the
rollback delete, whose result the code discards. -/
structure CreateEnv where
  selectFails : Bool
  insertFails : Bool
  newBookingId : String
  race : Option Int
  updateFails : Bool
  deleteFails : Bool
deriving Repr, DecidableEq

/-- The value createBooking returns, paired with the database afterwards. -/
structure CreateResult where
  booking : Option Booking
  error : Option String
  db : DB
deriving Repr, DecidableEq

/-- createBooking from part_001 lines 54-146.  Every thrown error is
caught by the surrounding try/catch and converted to a result with a
non-null error; the conditional update branch checks only the call's
error field, which is null whenever the call itself succeeds, matched
rows or not. -/
def createBooking (env : CreateEnv) (db : DB) (p : CreateBookingParams) : CreateResult :=
  if env.selectFails then
    ⟨none, some "Failed to verify ride availability", db⟩
  else
    match findRide db p.ride_id with
    | none => ⟨none, some "Failed to verify ride availability", db⟩
    | some ride =>
      if ride.status ≠ "active" then
        ⟨none, some "This ride is no longer available for booking", db⟩
      else if ride.available_seats < p.seats_booked then
        ⟨none, some ("Only " ++ toString ride.available_seats ++ " seats available"), db⟩
      else if env.insertFails then
        ⟨none, some "Failed to create booking", db⟩
      else
        let b : Booking :=
          ⟨env.newBookingId, p.ride_id, p.passenger_id, p.seats_booked, "pending"⟩
        let db1 : DB := { db with bookings := db.bookings ++ [b] }
        let db2 : DB := applyRace db1 p.ride_id env.race
        if env.updateFails then
          let db3 : DB := if env.deleteFails then db2 else deleteBooking db2 b.id
          ⟨none, some "Failed to update seat availability. Please try again.", db3⟩
        else
          ⟨some b, none,
            condUpdateRideSeats db2 p.ride_id ride.available_seats
              (ride.available_seats - p.seats_booked)⟩

/-- The BookingStatus union type from part_001. -/
inductive BookingStatus
  | pending
  | confirmed
  | cancelled
deriving Repr, DecidableEq

/-- The string a BookingStatus value denotes. -/
def BookingStatus.str : BookingStatus → String
  | .pending => "pending"
  | .confirmed => "confirmed"
  | .cancelled => "cancelled"

/-- The 'approved' | 'rejected' argument type of handleBookingRequest. -/
inductive ApprovalStatus
  | approved
  | rejected
deriving Repr, DecidableEq

/-- Remote-call outcomes for one run of handleBookingRequest. -/
structure HandleEnv where
  updateFails : Bool
  rpcFails : Bool
deriving Repr, DecidableEq

/-- The value handleBookingRequest returns, the database afterwards, and
the sequence of update_ride_seats remote-procedure invocations the run
issued (arguments p_ride_id, p_seats_booked).  The procedure itself lives
in the hosted database, not in this repository, so only its invocations
are recorded. -/
structure HandleResult where
  success : Bool
  error : Option String
  db : DB
  rpcCalls : List (String × Int)
deriving Repr, DecidableEq

/-- bookings.update({status}).eq('id', bid): every row whose id matches
gets the new status. -/
def setBookingStatus (db : DB) (bid : String) (s : String) : DB :=
  { db with bookings := db.bookings.map (fun b =>
      if b.id == bid then { b with status := s } else b) }

/-- handleBookingRequest from part_001 lines 148-196.  The status update
is filtered only on the booking id; a missing booking surfaces as the
.single() error.  The seat-adjustment remote procedure is invoked only on
the approved path and only when the joined ride row is present. -/
def handleBookingRequest (env : HandleEnv) (db : DB) (bookingId : String)
    (status : ApprovalStatus) : HandleResult :=
  let bookingStatus : BookingStatus :=
    match status with
    | .approved => .confirmed
    | .rejected => .cancelled
  if env.updateFails then
    ⟨false, some "update failed", db, []⟩
  else
    match findBooking db bookingId with
    | none => ⟨false, some "Booking not found", db, []⟩
    | some b0 =>
      let db1 : DB := setBookingStatus db bookingId bookingStatus.str
      let b : Booking := { b0 with status := bookingStatus.str }
      match status with
      | .approved =>
        match findRide db1 b.ride_id with
        | some ride =>
          if env.rpcFails then
            ⟨false, some "rpc failed", db1, [(ride.id, b.seats_booked)]⟩
          else
            ⟨true, none, db1, [(ride.id, b.seats_booked)]⟩
        | none => ⟨true, none, db1, []⟩
      | .rejected => ⟨true, none, db1, []⟩

/-- The value updateBookingStatus returns, paired with the database
afterwards. -/
structure UpdateStatusResult where
  booking : Option Booking
  error : Option String
  db : DB
deriving Repr, DecidableEq

/-- updateBookingStatus from part_001 lines 261-275: an unconditional
status write filtered only on the booking id, returning the updated row
via .select().single(). -/
def updateBookingStatus (updFails : Bool) (db : DB) (bookingId : String)
    (status : BookingStatus) : UpdateStatusResult :=
  if updFails then
    ⟨none, some "update failed", db⟩
  else
    match findBooking db bookingId with
    | none => ⟨none, some "no rows returned", db⟩
    | some b =>
      ⟨some { b with status := status.str }, none,
        setBookingStatus db bookingId status.str⟩

/-- The Location value type of location.ts.  Coordinates are modelled as
rationals (no arithmetic is performed on them in this module); heading
and speed are optional. -/
structure Location where
  latitude : ℚ
  longitude : ℚ
  heading : Option ℚ
  speed : Option ℚ
  timestamp : Nat
deriving Repr, DecidableEq

/-- A row of the driver_locations table; last_updated stores the
timestamp the ISO string is derived from. -/
structure DriverLocationRow where
  driver_id : String
  latitude : ℚ
  longitude : ℚ
  heading : Option ℚ
  speed : Option ℚ
  last_updated : Nat
deriving Repr, DecidableEq

/-- driver_locations.upsert keyed on driver_id: overwrite the existing
row for the driver, or append a new one. -/
def upsertDriverLocation (rows : List DriverLocationRow) (row : DriverLocationRow) :
    List DriverLocationRow :=
  if rows.any (fun r => r.driver_id == row.driver_id) then
    rows.map (fun r => if r.driver_id == row.driver_id then row else r)
  else rows ++ [row]

/-- The value updateDriverLocation returns, paired with the table
afterwards. -/
structure UpdateLocationResult where
  error : Option String
  rows : List DriverLocationRow
deriving Repr, DecidableEq

/-- updateDriverLocation from location.ts lines 11-30: the upsert's error
is re-thrown, caught by the surrounding try/catch and returned; on
success the error field is null. -/
def updateDriverLocation (upsertFails : Bool) (rows : List DriverLocationRow)
    (driverId : String) (loc : Location) : UpdateLocationResult :=
  if upsertFails then
    ⟨some "upsert failed", rows⟩
  else
    ⟨none, upsertDriverLocation rows
      ⟨driverId, loc.latitude, loc.longitude, loc.heading, loc.speed, loc.timestamp⟩⟩

/-- A GeolocationPosition as delivered by the browser: coords plus a
timestamp; heading and speed may be null. -/
structure GeoPosition where
  latitude : ℚ
  longitude : ℚ
  heading : Option ℚ
  speed : Option ℚ
  timestamp : Nat
deriving Repr, DecidableEq

/-- JavaScript `x || undefined` applied to a nullable number: null stays
absent, and a present 0 is also coerced to undefined (0 is falsy). -/
def orUndefined : Option ℚ → Option ℚ
  | none => none
  | some x => if x = 0 then none else some x

/-- The Location object both position handlers build from a
GeolocationPosition. -/
def toLocation (p : GeoPosition) : Location :=
  ⟨p.latitude, p.longitude, orUndefined p.heading, orUndefined p.speed, p.timestamp⟩

/-- maxRetries from startLocationTracking. -/
def maxRetries : Nat := 3

/-- getPosition from location.ts lines 48-71, driven by the list of
successive getCurrentPosition outcomes (none = the error callback fired).
Returns the position the promise resolves with, if any, together with the
setTimeout delays of the retries actually scheduled, in order.  On a
failure with retryCount < maxRetries the counter is incremented first and
the delay is 5000 * 2 ^ (retryCount - 1) with the incremented counter,
and the retry runs with a doubled timeout; once retryCount reaches
maxRetries a further failure rejects the promise.  An exhausted outcome
list models a call still pending, returned as none with no retry. -/
def getPosition : List (Option GeoPosition) → Nat → Nat → Option GeoPosition × List Nat
  | [], _, _ => (none, [])
  | outcome :: rest, retryCount, timeout =>
    match outcome with
    | some p => (some p, [])
    | none =>
      if retryCount < maxRetries then
        let rc1 := retryCount + 1
        let d := 5000 * 2 ^ (rc1 - 1)
        let r := getPosition rest rc1 (timeout * 2)
        (r.1, d :: r.2)
      else (none, [])

/-- One delivery of the continuous watchPosition subscription: either a
position or an error with its numeric code. -/
inductive WatchEvent
  | success (p : GeoPosition)
  | failure (code : Nat)
deriving Repr, DecidableEq

/-- The warning message the watch error branch logs for each error code
(1 = PERMISSION_DENIED, 2 = POSITION_UNAVAILABLE, 3 = TIMEOUT). -/
def watchErrorLog (code : Nat) : String :=
  if code == 1 then "Location permission denied"
  else if code == 2 then "Location information unavailable"
  else if code == 3 then "Location request timed out"
  else "Unknown error getting location"

/-- The watchPosition handlers applied to a stream of deliveries: each
success invokes onLocationUpdate with the converted Location, each
failure only appends a log line; nothing is retried. -/
def watchRun : List WatchEvent → List Location × List String
  | [] => ([], [])
  | .success p :: rest =>
    let r := watchRun rest
    (toLocation p :: r.1, r.2)
  | .failure c :: rest =>
    let r := watchRun rest
    (r.1, watchErrorLog c :: r.2)

/-- What a watch event contributes to the onLocationUpdate callback
stream. -/
def watchEventPos : WatchEvent → Option Location
  | .success p => some (toLocation p)
  | .failure _ => none

/-- What a watch event contributes to the warning log. -/
def watchEventLog : WatchEvent → Option String
  | .success _ => none
  | .failure c => some (watchErrorLog c)

/-- The default PositionOptions timeout of startLocationTracking. -/
def defaultTimeout : Nat := 30000

/-- Observable outcome of one run of startLocationTracking:
initialCallback is the onLocationUpdate invocation made by the one-shot
acquisition (none when it gave up or never resolved), retryDelays the
scheduled backoff delays, gaveUp whether the final warning was logged,
watchStarted whether watchPosition was called, watchCallbacks /
watchErrorLogs the continuous subscription's callback invocations and
logged warnings, and cleanupClearsWatch whether the returned cleanup
function clears a watch (false = the no-op cleanup). -/
structure TrackingRun where
  initialCallback : Option Location
  retryDelays : List Nat
  gaveUp : Bool
  watchStarted : Bool
  watchCallbacks : List Location
  watchErrorLogs : List String
  cleanupClearsWatch : Bool
deriving Repr, DecidableEq

/-- startLocationTracking from location.ts lines 32-123, driven by the
one-shot outcome list and the watch delivery stream.  Without a
geolocation API it logs a warning and returns an empty cleanup function
before anything else runs. -/
def startLocationTracking (hasGeolocation : Bool)
    (oneShot : List (Option GeoPosition)) (watchEvents : List WatchEvent) : TrackingRun :=
  if !hasGeolocation then
    ⟨none, [], false, false, [], [], false⟩
  else
    let g := getPosition oneShot 0 defaultTimeout
    let w := watchRun watchEvents
    ⟨g.1.map toLocation, g.2, g.1.isNone, true, w.1, w.2, true⟩

/-- One parsed Nominatim search result, after the JSON number parsing of
lat/lon. -/
structure GeoResult where
  lat : ℚ
  lon : ℚ
  display_name : String
deriving Repr, DecidableEq

/-- Outcome of one fetch against the geocoding endpoint: a transport
error or a non-ok HTTP status collapse to fail (both reach the catch
block); ok carries the parsed result array. -/
inductive FetchOutcome
  | fail
  | ok (results : List GeoResult)
deriving Repr, DecidableEq

/-- The coordinate record geocodeLocation resolves with. -/
structure Coords where
  lat : ℚ
  lng : ℚ
  name : String
deriving Repr, DecidableEq

/-- The q parameter of the region-scoped query: the location name with
", Gujarat, India" appended (percent-encoding not modelled). -/
def scopedQuery (locationName : String) : String :=
  locationName ++ ", Gujarat, India"

/-- data[0] turned into the returned record: parsed lat/lon plus the
display name cut at its first comma. -/
def firstResultCoords (data : List GeoResult) : Option Coords :=
  data.head?.map (fun r => ⟨r.lat, r.lon, (r.display_name.splitOn ",").headD ""⟩)

/-- geocodeLocation from location.ts lines 126-196, driven by the
outcomes of the scoped and the unscoped fetch.  Returns the resolved
value together with the q parameters of the queries actually issued, in
order; the unscoped fetch runs only when the scoped one succeeded with an
empty result array, and any failing fetch lands in the catch block, which
returns null. -/
def geocodeLocation (locationName : String) (scopedRes unscopedRes : FetchOutcome) :
    Option Coords × List String :=
  match scopedRes with
  | .fail => (none, [scopedQuery locationName])
  | .ok data =>
    if data.isEmpty then
      match unscopedRes with
      | .fail => (none, [scopedQuery locationName, locationName])
      | .ok data2 => (firstResultCoords data2, [scopedQuery locationName, locationName])
    else (firstResultCoords data, [scopedQuery locationName])

/-- Rewriting a booking's status through the id-filtered map updates the
row that an id lookup finds. -/
lemma find_map_setStatus (l : List Booking) (bid s : String) (b : Booking)
    (h : l.find? (fun x => x.id == bid) = some b) :
    (l.map (fun x => if x.id == bid then { x with status := s } else x)).find?
      (fun x => x.id == bid) = some { b with status := s } := by
  induction l with
  | nil => simp at h
  | cons x xs ih =>
    rw [List.map_cons]
    cases hxb : (x.id == bid) with
    | false =>
      rw [List.find?_cons] at h
      simp only [hxb] at h
      rw [if_neg (by simp [hxb]), List.find?_cons]
      simp only [hxb]
      exact ih h
    | true =>
      rw [List.find?_cons] at h
      simp only [hxb] at h
      cases h
      simp [List.find?_cons, hxb]

/-- setBookingStatus seen through findBooking. -/
lemma findBooking_setBookingStatus (db : DB) (bid s : String) (b : Booking)
    (h : findBooking db bid = some b) :
    findBooking (setBookingStatus db bid s) bid = some { b with status := s } :=
  find_map_setStatus db.bookings bid s b h

/-- setBookingStatus leaves the rides table untouched. -/
lemma findRide_setBookingStatus (db : DB) (bid s rid : String) :
    findRide (setBookingStatus db bid s) rid = findRide db rid := rfl

/-- Claim C1: the spec says a conditional seat update that affects zero
rows makes createBooking delete the booking it inserted and report
failure.  The code only rolls back when the update call's error field is
non-null, and a zero-row update is not an error, so on a lost race the
booking survives and the operation reports success: starting from a ride
with 2 seats, with a concurrent write dropping the seat count to 1
between the insert and the conditional update, the update matches zero
rows, yet the result carries the booking, a null error, the booking row
still stored, and the stale seat count untouched. -/
theorem createBooking_lost_race_keeps_booking :
    matchedRows
        (applyRace ⟨[⟨"r1", "d1", 2, "active"⟩], [⟨"b1", "r1", "p1", 1, "pending"⟩]⟩
          "r1" (some 1)) "r1" 2 = 0
    ∧ (createBooking ⟨false, false, "b1", some 1, false, false⟩
        ⟨[⟨"r1", "d1", 2, "active"⟩], []⟩ ⟨"r1", "p1", 1⟩).error = none
    ∧ (createBooking ⟨false, false, "b1", some 1, false, false⟩
        ⟨[⟨"r1", "d1", 2, "active"⟩], []⟩ ⟨"r1", "p1", 1⟩).booking
      = some ⟨"b1", "r1", "p1", 1, "pending"⟩
    ∧ (createBooking ⟨false, false, "b1", some 1, false, false⟩
        ⟨[⟨"r1", "d1", 2, "active"⟩], []⟩ ⟨"r1", "p1", 1⟩).db.bookings
      = [⟨"b1", "r1", "p1", 1, "pending"⟩]
    ∧ (createBooking ⟨false, false, "b1", some 1, false, false⟩
        ⟨[⟨"r1", "d1", 2, "active"⟩], []⟩ ⟨"r1", "p1", 1⟩).db.rides
      = [⟨"r1", "d1", 1, "active"⟩] := by
  decide

/-- Claim C2, counterexample: handleBookingRequest filters its status
update only on the booking id, so applying it with 'approved' to a
booking whose current status is cancelled yields status confirmed,
contradicting the claim that no single request moves cancelled directly
to confirmed. -/
theorem handleBookingRequest_cancelled_to_confirmed :
    (handleBookingRequest ⟨false, false⟩
        ⟨[⟨"r1", "d1", 5, "active"⟩], [⟨"b1", "r1", "p1", 1, "cancelled"⟩]⟩
        "b1" .approved).db.bookings = [⟨"b1", "r1", "p1", 1, "confirmed"⟩]
    ∧ (handleBookingRequest ⟨false, false⟩
        ⟨[⟨"r1", "d1", 5, "active"⟩], [⟨"b1", "r1", "p1", 1, "cancelled"⟩]⟩
        "b1" .approved).success = true := by
  decide

/-- Claim C6: on a ride with 2 available seats, requesting 3 seats
returns an error and stores no booking row, while requesting 2 seats in
an uncontended run succeeds and leaves available_seats at 0, the value
read at the start minus the seats requested. -/
theorem createBooking_two_seats_example :
    (createBooking ⟨false, false, "b1", none, false, false⟩
        ⟨[⟨"r1", "d1", 2, "active"⟩], []⟩ ⟨"r1", "p1", 3⟩).booking = none
    ∧ (createBooking ⟨false, false, "b1", none, false, false⟩
        ⟨[⟨"r1", "d1", 2, "active"⟩], []⟩ ⟨"r1", "p1", 3⟩).error ≠ none
    ∧ (createBooking ⟨false, false, "b1", none, false, false⟩
        ⟨[⟨"r1", "d1", 2, "active"⟩], []⟩ ⟨"r1", "p1", 3⟩).db.bookings = []
    ∧ (createBooking ⟨false, false, "b1", none, false, false⟩
        ⟨[⟨"r1", "d1", 2, "active"⟩], []⟩ ⟨"r1", "p1", 2⟩).booking ≠ none
    ∧ (createBooking ⟨false, false, "b1", none, false, false⟩
        ⟨[⟨"r1", "d1", 2, "active"⟩], []⟩ ⟨"r1", "p1", 2⟩).error = none
    ∧ (createBooking ⟨false, false, "b1", none, false, false⟩
        ⟨[⟨"r1", "d1", 2, "active"⟩], []⟩ ⟨"r1", "p1", 2⟩).db.rides
      = [⟨"r1", "d1", 0, "active"⟩]
    ∧ (createBooking ⟨false, false, "b1", none, false, false⟩
        ⟨[⟨"r1", "d1", 2, "active"⟩], []⟩ ⟨"r1", "p1", 2⟩).db.bookings
      = [⟨"b1", "r1", "p1", 2, "pending"⟩] := by
  decide

/-- Claim C10: without a geolocation API, startLocationTracking returns
the no-op cleanup, never invokes the location-update callback, schedules
no retry, and starts no watch, whatever outcomes the environment would
have delivered. -/
theorem startLocationTracking_no_geolocation :
    ∀ (oneShot : List (Option GeoPosition)) (watchEvents : List WatchEvent),
      startLocationTracking false oneShot watchEvents
        = ⟨none, [], false, false, [], [], false⟩ := by
  intro oneShot watchEvents
  rfl

/-- Claim C4: whenever the ride row read at the start of createBooking
has fewer available seats than requested, the operation returns an error
result and leaves the database, in particular the bookings table,
unchanged. -/
theorem createBooking_insufficient_seats_fails :
    ∀ (env : CreateEnv) (db : DB) (p : CreateBookingParams) (ride : Ride),
      findRide db p.ride_id = some ride →
      ride.available_seats < p.seats_booked →
      (createBooking env db p).error ≠ none
      ∧ (createBooking env db p).booking = none
      ∧ (createBooking env db p).db = db := by
  intro env db p ride hfind hseats
  have h : ∃ msg, createBooking env db p = ⟨none, some msg, db⟩ := by
    unfold createBooking
    simp only [hfind]
    cases hsel : env.selectFails with
    | true => exact ⟨_, rfl⟩
    | false =>
      by_cases hst : ride.status ≠ "active"
      · rw [if_pos hst]
        exact ⟨_, rfl⟩
      · rw [if_neg hst, if_pos hseats]
        exact ⟨_, rfl⟩
  obtain ⟨msg, hm⟩ := h
  rw [hm]
  exact ⟨by simp, rfl, rfl⟩

/-- Witness for C4: a ride with 2 seats and a request for 3. -/
theorem createBooking_insufficient_seats_fails_witness :
    (createBooking ⟨false, false, "b1", none, false, false⟩
        ⟨[⟨"r1", "d1", 2, "active"⟩], []⟩ ⟨"r1", "p1", 3⟩).error ≠ none
    ∧ (createBooking ⟨false, false, "b1", none, false, false⟩
        ⟨[⟨"r1", "d1", 2, "active"⟩], []⟩ ⟨"r1", "p1", 3⟩).booking = none
    ∧ (createBooking ⟨false, false, "b1", none, false, false⟩
        ⟨[⟨"r1", "d1", 2, "active"⟩], []⟩ ⟨"r1", "p1", 3⟩).db
      = ⟨[⟨"r1", "d1", 2, "active"⟩], []⟩ :=
  createBooking_insufficient_seats_fails ⟨false, false, "b1", none, false, false⟩
    ⟨[⟨"r1", "d1", 2, "active"⟩], []⟩ ⟨"r1", "p1", 3⟩ ⟨"r1", "d1", 2, "active"⟩
    (by decide) (by decide)

/-- Claim C5: whenever the ride row read at the start of createBooking
has a status other than active, the operation returns an error result and
leaves the database, in particular the bookings table, unchanged. -/
theorem createBooking_inactive_ride_fails :
    ∀ (env : CreateEnv) (db : DB) (p : CreateBookingParams) (ride : Ride),
      findRide db p.ride_id = some ride →
      ride.status ≠ "active" →
      (createBooking env db p).error ≠ none
      ∧ (createBooking env db p).booking = none
      ∧ (createBooking env db p).db = db := by
  intro env db p ride hfind hstatus
  have h : ∃ msg, createBooking env db p = ⟨none, some msg, db⟩ := by
    unfold createBooking
    simp only [hfind]
    cases hsel : env.selectFails with
    | true => exact ⟨_, rfl⟩
    | false =>
      rw [if_pos hstatus]
      exact ⟨_, rfl⟩
  obtain ⟨msg, hm⟩ := h
  rw [hm]
  exact ⟨by simp, rfl, rfl⟩

/-- Witness for C5: a completed ride with seats to spare. -/
theorem createBooking_inactive_ride_fails_witness :
    (createBooking ⟨false, false, "b1", none, false, false⟩
        ⟨[⟨"r1", "d1", 5, "completed"⟩], []⟩ ⟨"r1", "p1", 1⟩).error ≠ none
    ∧ (createBooking ⟨false, false, "b1", none, false, false⟩
        ⟨[⟨"r1", "d1", 5, "completed"⟩], []⟩ ⟨"r1", "p1", 1⟩).booking = none
    ∧ (createBooking ⟨false, false, "b1", none, false, false⟩
        ⟨[⟨"r1", "d1", 5, "completed"⟩], []⟩ ⟨"r1", "p1", 1⟩).db
      = ⟨[⟨"r1", "d1", 5, "completed"⟩], []⟩ :=
  createBooking_inactive_ride_fails ⟨false, false, "b1", none, false, false⟩
    ⟨[⟨"r1", "d1", 5, "completed"⟩], []⟩ ⟨"r1", "p1", 1⟩ ⟨"r1", "d1", 5, "completed"⟩
    (by decide) (by decide)

/-- Claim C9: createBooking and updateDriverLocation are total on every
environment of remote-call outcomes (no exception escapes: the embedding
returns a result record in all cases) and the returned record has a null
error exactly on success: for createBooking a null error coincides with a
returned booking, and for updateDriverLocation a null error coincides
with the upsert having succeeded. -/
theorem booking_and_location_error_shape :
    (∀ (env : CreateEnv) (db : DB) (p : CreateBookingParams),
      (createBooking env db p).error = none ↔ (createBooking env db p).booking ≠ none)
    ∧ (∀ (fails : Bool) (rows : List DriverLocationRow) (driverId : String) (loc : Location),
      (updateDriverLocation fails rows driverId loc).error = none ↔ fails = false) := by
  constructor
  · intro env db p
    unfold createBooking
    split
    · simp
    · split
      · simp
      · split
        · simp
        · split
          · simp
          · split
            · simp
            · split
              · simp
              · simp
  · intro fails rows driverId loc
    unfold updateDriverLocation
    cases fails <;> simp

/-- Claim C3: on a pending booking whose ride row exists, with the
remote calls succeeding, handleBookingRequest with 'approved' stores
status confirmed and issues exactly one update_ride_seats invocation,
carrying the booking's ride id and seats_booked; with 'rejected' it
stores status cancelled and issues no seat-adjustment call. -/
theorem handleBookingRequest_pending_paths :
    ∀ (env : HandleEnv) (db : DB) (bid : String) (b : Booking) (ride : Ride),
      env.updateFails = false → env.rpcFails = false →
      findBooking db bid = some b → b.status = "pending" →
      findRide db b.ride_id = some ride →
      (findBooking (handleBookingRequest env db bid .approved).db bid
          = some { b with status := "confirmed" }
        ∧ (handleBookingRequest env db bid .approved).rpcCalls
          = [(ride.id, b.seats_booked)])
      ∧ (findBooking (handleBookingRequest env db bid .rejected).db bid
          = some { b with status := "cancelled" }
        ∧ (handleBookingRequest env db bid .rejected).rpcCalls = []) := by
  intro env db bid b ride hupd hrpc hb hpend hride
  have hrideSet : ∀ s : String, findRide (setBookingStatus db bid s) b.ride_id = some ride :=
    fun s => (findRide_setBookingStatus db bid s b.ride_id).trans hride
  constructor
  · have hrun : handleBookingRequest env db bid .approved
        = ⟨true, none, setBookingStatus db bid "confirmed", [(ride.id, b.seats_booked)]⟩ := by
      unfold handleBookingRequest
      simp only [hupd, hrpc, hb, BookingStatus.str]
      rw [hrideSet "confirmed"]
      rfl
    rw [hrun]
    exact ⟨findBooking_setBookingStatus db bid "confirmed" b hb, rfl⟩
  · have hrun : handleBookingRequest env db bid .rejected
        = ⟨true, none, setBookingStatus db bid "cancelled", []⟩ := by
      unfold handleBookingRequest
      simp only [hupd, hb]
      rfl
    rw [hrun]
    exact ⟨findBooking_setBookingStatus db bid "cancelled" b hb, rfl⟩

/-- Witness for C3: a pending booking on an active ride, approved and
rejected. -/
theorem handleBookingRequest_pending_paths_witness :
    (findBooking (handleBookingRequest ⟨false, false⟩
          ⟨[⟨"r1", "d1", 4, "active"⟩], [⟨"b1", "r1", "p1", 2, "pending"⟩]⟩
          "b1" .approved).db "b1" = some ⟨"b1", "r1", "p1", 2, "confirmed"⟩
      ∧ (handleBookingRequest ⟨false, false⟩
          ⟨[⟨"r1", "d1", 4, "active"⟩], [⟨"b1", "r1", "p1", 2, "pending"⟩]⟩
          "b1" .approved).rpcCalls = [("r1", 2)])
    ∧ (findBooking (handleBookingRequest ⟨false, false⟩
          ⟨[⟨"r1", "d1", 4, "active"⟩], [⟨"b1", "r1", "p1", 2, "pending"⟩]⟩
          "b1" .rejected).db "b1" = some ⟨"b1", "r1", "p1", 2, "cancelled"⟩
      ∧ (handleBookingRequest ⟨false, false⟩
          ⟨[⟨"r1", "d1", 4, "active"⟩], [⟨"b1", "r1", "p1", 2, "pending"⟩]⟩
          "b1" .rejected).rpcCalls = []) :=
  handleBookingRequest_pending_paths ⟨false, false⟩
    ⟨[⟨"r1", "d1", 4, "active"⟩], [⟨"b1", "r1", "p1", 2, "pending"⟩]⟩
    "b1" ⟨"b1", "r1", "p1", 2, "pending"⟩ ⟨"r1", "d1", 4, "active"⟩
    rfl rfl (by decide) rfl (by decide)

/-- Claim C2, amended: neither handleBookingRequest nor
updateBookingStatus consults the booking's current status — each writes
the status its argument determines, filtered only on the booking id.  So
from a cancelled booking, a 'rejected' request stores cancelled and a
non-confirmed direct update stores a string other than confirmed, but an
'approved' request does store confirmed: the cancelled-to-confirmed
transition is expressed in this code whenever the request carries
approval or a direct confirmed update. -/
theorem booking_status_writes_unconditional :
    ∀ (db : DB) (bid : String) (b : Booking),
      findBooking db bid = some b → b.status = "cancelled" →
      findBooking (handleBookingRequest ⟨false, false⟩ db bid .rejected).db bid
          = some { b with status := "cancelled" }
      ∧ (∀ s : BookingStatus, s ≠ .confirmed →
          findBooking (updateBookingStatus false db bid s).db bid
            = some { b with status := s.str }
          ∧ s.str ≠ "confirmed")
      ∧ findBooking (handleBookingRequest ⟨false, false⟩ db bid .approved).db bid
          = some { b with status := "confirmed" } := by
  intro db bid b hb hcanc
  refine ⟨?_, ?_, ?_⟩
  · have hrun : (handleBookingRequest ⟨false, false⟩ db bid .rejected).db
        = setBookingStatus db bid "cancelled" := by
      unfold handleBookingRequest
      simp only [hb]
      rfl
    rw [hrun]
    exact findBooking_setBookingStatus db bid "cancelled" b hb
  · intro s hs
    have hrun : (updateBookingStatus false db bid s).db
        = setBookingStatus db bid s.str := by
      unfold updateBookingStatus
      simp only [hb]
      rfl
    refine ⟨by rw [hrun]; exact findBooking_setBookingStatus db bid s.str b hb, ?_⟩
    cases s with
    | pending => simp [BookingStatus.str]
    | confirmed => exact absurd rfl hs
    | cancelled => simp [BookingStatus.str]
  · have hbn : (handleBookingRequest ⟨false, false⟩ db bid .approved).db.bookings
        = (setBookingStatus db bid "confirmed").bookings := by
      unfold handleBookingRequest
      simp only [hb, BookingStatus.str]
      cases hfr : findRide (setBookingStatus db bid "confirmed") b.ride_id with
      | none => simp [hfr]
      | some ride => simp [hfr]
    show (handleBookingRequest ⟨false, false⟩ db bid .approved).db.bookings.find?
        (fun x => x.id == bid) = some { b with status := "confirmed" }
    rw [hbn]
    exact findBooking_setBookingStatus db bid "confirmed" b hb

/-- Witness for C2's amended statement: a concrete cancelled booking run
through rejection, a direct pending update, and approval. -/
theorem booking_status_writes_unconditional_witness :
    findBooking (handleBookingRequest ⟨false, false⟩
        ⟨[⟨"r1", "d1", 5, "active"⟩], [⟨"b1", "r1", "p1", 1, "cancelled"⟩]⟩
        "b1" .rejected).db "b1" = some ⟨"b1", "r1", "p1", 1, "cancelled"⟩
    ∧ findBooking (updateBookingStatus false
        ⟨[⟨"r1", "d1", 5, "active"⟩], [⟨"b1", "r1", "p1", 1, "cancelled"⟩]⟩
        "b1" .pending).db "b1" = some ⟨"b1", "r1", "p1", 1, "pending"⟩
    ∧ findBooking (handleBookingRequest ⟨false, false⟩
        ⟨[⟨"r1", "d1", 5, "active"⟩], [⟨"b1", "r1", "p1", 1, "cancelled"⟩]⟩
        "b1" .approved).db "b1" = some ⟨"b1", "r1", "p1", 1, "confirmed"⟩ := by
  have h := booking_status_writes_unconditional
    ⟨[⟨"r1", "d1", 5, "active"⟩], [⟨"b1", "r1", "p1", 1, "cancelled"⟩]⟩
    "b1" ⟨"b1", "r1", "p1", 1, "cancelled"⟩ (by decide) rfl
  exact ⟨h.1, (h.2.1 .pending (by decide)).1, h.2.2⟩

/-- The watch handlers deliver every position to the callback and one
log line per error, in order. -/
lemma watchRun_eq (events : List WatchEvent) :
    watchRun events = (events.filterMap watchEventPos, events.filterMap watchEventLog) := by
  induction events with
  | nil => rfl
  | cons e rest ih =>
    cases e with
    | success p => simp [watchRun, watchEventPos, watchEventLog, ih]
    | failure c => simp [watchRun, watchEventPos, watchEventLog, ih]

/-- Four consecutive one-shot failures exhaust the retry budget: the
acquisition rejects after scheduling exactly the three backoff delays. -/
lemma getPosition_four_failures (rest : List (Option GeoPosition)) (t : Nat) :
    getPosition (List.replicate 4 none ++ rest) 0 t = (none, [5000, 10000, 20000]) := by
  show getPosition (none :: none :: none :: none :: rest) 0 t = (none, [5000, 10000, 20000])
  simp [getPosition, maxRetries]

/-- Claim C7: the one-shot acquisition retries after each failure while
retryCount is below 3, scheduling retry number k with a delay of
5000 * 2 ^ (k - 1) milliseconds (5s, 10s, 20s), and resolves with the
first successful position; after a fourth consecutive failure it gives
up having scheduled exactly those three delays, whatever outcomes would
follow, and startLocationTracking then logs the give-up warning while
the continuous watch still reports every delivered position through the
callback and turns each watch error into a log line and nothing else. -/
theorem startLocationTracking_retry_and_watch :
    (∀ (n : Nat), n ≤ 3 → ∀ (p : GeoPosition) (rest : List (Option GeoPosition)) (t : Nat),
      getPosition (List.replicate n none ++ some p :: rest) 0 t
        = (some p, (List.range n).map (fun k => 5000 * 2 ^ k)))
    ∧ (∀ (rest : List (Option GeoPosition)) (events : List WatchEvent),
      startLocationTracking true (List.replicate 4 none ++ rest) events
        = ⟨none, [5000, 10000, 20000], true, true,
            events.filterMap watchEventPos, events.filterMap watchEventLog, true⟩) := by
  constructor
  · intro n hn p rest t
    interval_cases n
    · simp [getPosition]
    · show getPosition (none :: some p :: rest) 0 t = _
      simp [getPosition, maxRetries, List.range_succ]
    · show getPosition (none :: none :: some p :: rest) 0 t = _
      simp [getPosition, maxRetries, List.range_succ]
    · show getPosition (none :: none :: none :: some p :: rest) 0 t = _
      simp [getPosition, maxRetries, List.range_succ]
  · intro rest events
    unfold startLocationTracking
    rw [getPosition_four_failures rest defaultTimeout, watchRun_eq events]
    rfl

/-- Witness for C7: two failures, then a success, scheduling the 5s and
10s delays. -/
theorem startLocationTracking_retry_and_watch_witness :
    getPosition (List.replicate 2 none ++ some ⟨1, 2, none, none, 7⟩ :: []) 0 30000
      = (some ⟨1, 2, none, none, 7⟩, (List.range 2).map (fun k => 5000 * 2 ^ k)) :=
  startLocationTracking_retry_and_watch.1 2 (by decide) ⟨1, 2, none, none, 7⟩ [] 30000

/-- Claim C8: geocodeLocation issues the region-scoped query first (the
name with ", Gujarat, India" appended), issues the unscoped query exactly
when the scoped one succeeded with an empty result list, resolves with
the first result's coordinates and first display-name segment whenever
the query it settled on has results, and resolves null when the scoped
fetch fails, when both return no results, or when the unscoped fetch
fails after an empty scoped result. -/
theorem geocodeLocation_scoped_then_unscoped :
    ∀ (locationName : String) (u : FetchOutcome) (r : GeoResult) (d d2 : List GeoResult),
      geocodeLocation locationName .fail u = (none, [scopedQuery locationName])
      ∧ geocodeLocation locationName (.ok (r :: d)) u
          = (some ⟨r.lat, r.lon, (r.display_name.splitOn ",").headD ""⟩,
              [scopedQuery locationName])
      ∧ geocodeLocation locationName (.ok []) .fail
          = (none, [scopedQuery locationName, locationName])
      ∧ geocodeLocation locationName (.ok []) (.ok (r :: d2))
          = (some ⟨r.lat, r.lon, (r.display_name.splitOn ",").headD ""⟩,
              [scopedQuery locationName, locationName])
      ∧ geocodeLocation locationName (.ok []) (.ok [])
          = (none, [scopedQuery locationName, locationName]) := by
  intro locationName u r d d2
  refine ⟨rfl, ?_, rfl, ?_, rfl⟩
  · simp [geocodeLocation, firstResultCoords]
  · simp [geocodeLocation, firstResultCoords]

end RideShare
